import Mathlib

/-!
Verification of the SENTINEL-X launcher (`scripts/start-sentinel-x.py`) and
installation verifier (`scripts/verify-installation.py`) against their
natural-language specification.

The launcher's shutdown loop, readiness probe, main run sequence, monitor
thread body and the verifier's main loop are shallowly embedded as Lean
functions.  External effects (child-process behaviour, socket connect
results, check-function outcomes, loop events) are passed in as explicit
oracles, so every definition is executable on concrete inputs.
-/

namespace SentinelX

/-! ## Shutdown model (`SentinelXLauncher.shutdown`, lines 185-208)

A managed child process is abstracted by how it reacts to the two
termination signals: `termExit = some e` means it exits `e` seconds after
receiving SIGTERM (`process.terminate()`), `none` means it ignores SIGTERM;
`killExit = some k` means it exits `k` seconds after SIGKILL
(`process.kill()`), `none` means even SIGKILL does not make it exit
(e.g. uninterruptible sleep), in which case the untimed `process.wait()`
that follows `kill()` in the source never returns. -/

structure ProcBehavior where
  termExit : Option Nat
  killExit : Option Nat
deriving DecidableEq

/-- Status of one entry of `self.processes`: still running (with its
behaviour), or already terminal, remembering whether it stopped via the
graceful path (`process.wait(timeout=5)` succeeded) or was force-killed. -/
inductive ProcStatus where
  | running (b : ProcBehavior)
  | stoppedGracefully
  | stoppedForcibly
deriving DecidableEq

/-- The observable signal events of one iteration of the shutdown loop:
at what absolute time SIGTERM was actually delivered (none if the process
was already dead, in which case `Popen.send_signal` is a no-op), and at
what absolute time SIGKILL was delivered, if at all. -/
structure ShutdownEvent where
  termTime : Option Nat
  killTime : Option Nat
deriving DecidableEq

/-- `process.wait(timeout=5)` in the source: the grace period. -/
def gracePeriod : Nat := 5

/-- One iteration of the `for service_name, process in self.processes`
loop of `shutdown`, started at absolute time `t`:
`process.terminate()`; `process.wait(timeout=5)`; on `TimeoutExpired`,
`process.kill()` then an untimed `process.wait()`.
Returns the delivered-signal events, the absolute finish time of this
iteration and the resulting status, or `none` when the untimed final
`wait()` never returns (the process ignores SIGKILL). -/
def stopOne (t : Nat) : ProcStatus → Option (ShutdownEvent × Nat × ProcStatus)
  | ProcStatus.running b =>
    match b.termExit with
    | some e =>
      if e ≤ gracePeriod then
        some (⟨some t, none⟩, t + e, ProcStatus.stoppedGracefully)
      else
        match b.killExit with
        | some k =>
          some (⟨some t, some (t + gracePeriod)⟩, t + gracePeriod + k,
            ProcStatus.stoppedForcibly)
        | none => none
    | none =>
      match b.killExit with
      | some k =>
        some (⟨some t, some (t + gracePeriod)⟩, t + gracePeriod + k,
          ProcStatus.stoppedForcibly)
      | none => none
  | ProcStatus.stoppedGracefully =>
    some (⟨none, none⟩, t, ProcStatus.stoppedGracefully)
  | ProcStatus.stoppedForcibly =>
    some (⟨none, none⟩, t, ProcStatus.stoppedForcibly)

/-- The whole shutdown loop, started at absolute time `t`: the source
iterates over `self.processes` strictly sequentially, so each process's
escalation begins only when the previous one has finished.  Returns the
per-process events, the loop's finish time and the final statuses, or
`none` when some iteration never returns. -/
def stopAll (t : Nat) : List ProcStatus → Option (List ShutdownEvent × Nat × List ProcStatus)
  | [] => some ([], t, [])
  | p :: ps =>
    match stopOne t p with
    | none => none
    | some (ev, t1, p1) =>
      match stopAll t1 ps with
      | none => none
      | some (evs, t2, ps2) => some (ev :: evs, t2, p1 :: ps2)

/-- A process on which the final untimed `wait()` returns: it either is
already terminal or reacts to SIGKILL. -/
def respondsToKill : ProcStatus → Bool
  | ProcStatus.running b => b.killExit.isSome
  | ProcStatus.stoppedGracefully => true
  | ProcStatus.stoppedForcibly => true

/-- Terminal statuses (the source has no `StillRunning` report). -/
def isTerminal : ProcStatus → Bool
  | ProcStatus.running _ => false
  | ProcStatus.stoppedGracefully => true
  | ProcStatus.stoppedForcibly => true

/-! ## Readiness probe (`SentinelXLauncher.wait_for_service`, lines 151-174)

The probe runs `for i in range(timeout)`: create a socket with
`settimeout(1)`, `connect_ex(('localhost', port))`, close; on result `0`
return `True`; otherwise (including any exception, caught by the bare
`except Exception: pass`) `time.sleep(1)` and retry.  The network is an
oracle: `attempt i` is the outcome of the `i`-th connect attempt and
`dur i` its duration in seconds (the `settimeout(1)` bounds it by 1). -/

inductive ConnResult where
  | ok
  | refused
  | exc
deriving DecidableEq

/-- The effect of the `try`/`except Exception: pass`: an exception behaves
exactly like a failed connect. -/
def normalizeConn : ConnResult → ConnResult
  | ConnResult.exc => ConnResult.refused
  | r => r

/-- The probe loop: `rem` iterations left, `i` the current attempt index,
`t` the elapsed time so far.  Returns (ready?, total elapsed time). -/
def wait_for_service_loop (attempt : Nat → ConnResult) (dur : Nat → Nat) :
    Nat → Nat → Nat → Bool × Nat
  | 0, _, t => (false, t)
  | Nat.succ rem, i, t =>
    if attempt i = ConnResult.ok then (true, t + dur i)
    else wait_for_service_loop attempt dur rem (i + 1) (t + dur i + 1)

/-- `wait_for_service(port, service_name, timeout)`. -/
def wait_for_service (attempt : Nat → ConnResult) (dur : Nat → Nat) (timeout : Nat) :
    Bool × Nat :=
  wait_for_service_loop attempt dur timeout 0 0

/-! ## The main run sequence (`SentinelXLauncher.run`, lines 255-293)

The environment of one run: whether the dependency check passes, whether
each spawn succeeds, whether each readiness probe reports ready, and
whether a termination signal ever arrives while in the steady state. -/

structure RunEnv where
  depsOk : Bool
  mlSpawnOk : Bool
  mlReady : Bool
  feSpawnOk : Bool
  feReady : Bool
  sigArrives : Bool
deriving DecidableEq

/-- The externally visible actions of `run`, in order. -/
inductive Action where
  | spawnML
  | probeML
  | spawnFE
  | probeFE
  | shutdownA
  | exitA (code : Nat)
deriving DecidableEq

/-- The action trace of `run`: check dependencies (exit 1 on failure),
start the ML service (exit 1 on failure), probe port 5000 (on timeout
`self.shutdown()`, which ends in `sys.exit(0)`, so the `sys.exit(1)`
that follows it in the source is unreachable), start the frontend, probe
port 3000, then sleep until a signal triggers `shutdown`. -/
def runTrace (env : RunEnv) : List Action :=
  if env.depsOk then
    if env.mlSpawnOk then
      if env.mlReady then
        if env.feSpawnOk then
          if env.feReady then
            [Action.spawnML, Action.probeML, Action.spawnFE, Action.probeFE] ++
              (if env.sigArrives then [Action.shutdownA, Action.exitA 0] else [])
          else
            [Action.spawnML, Action.probeML, Action.spawnFE, Action.probeFE,
              Action.shutdownA, Action.exitA 0]
        else
          [Action.spawnML, Action.probeML, Action.spawnFE, Action.shutdownA,
            Action.exitA 0]
      else
        [Action.spawnML, Action.probeML, Action.shutdownA, Action.exitA 0]
    else
      [Action.spawnML, Action.exitA 1]
  else
    [Action.exitA 1]

/-- The process exit status of one run, `none` when the program never
exits (no shutdown trigger, or a shutdown blocked forever by a process
that ignores SIGKILL).  Every path through `self.shutdown()` ends in
`sys.exit(0)` (line 208), which raises before the `sys.exit(1)` calls on
lines 272/278/283 can run; `mlB`/`feB` are the behaviours of the two
children for the embedded shutdown loop. -/
def runExitCode (env : RunEnv) (mlB feB : ProcBehavior) : Option Nat :=
  if env.depsOk then
    if env.mlSpawnOk then
      if env.mlReady then
        if env.feSpawnOk then
          if env.feReady then
            if env.sigArrives then
              (stopAll 0 [ProcStatus.running mlB, ProcStatus.running feB]).map
                (fun _ => 0)
            else none
          else
            (stopAll 0 [ProcStatus.running mlB, ProcStatus.running feB]).map
              (fun _ => 0)
        else
          (stopAll 0 [ProcStatus.running mlB]).map (fun _ => 0)
      else
        (stopAll 0 [ProcStatus.running mlB]).map (fun _ => 0)
    else some 1
  else some 1

/-- The run environment of the failing scenario: dependencies fine, ML
service spawns, but the port-5000 readiness probe times out. -/
def readinessTimeoutEnv : RunEnv :=
  ⟨true, true, false, true, true, false⟩

/-- A well-behaved child: exits immediately on SIGTERM (and on SIGKILL). -/
def promptBehavior : ProcBehavior := ⟨some 0, some 0⟩

/-! ## The steady-state main loop (`run`, lines 288-293)

After startup the source runs `while self.running: time.sleep(1)`.  The
loop body observes nothing but `self.running`; the only writers of
`self.running` are `shutdown()` (reached from the SIGINT/SIGTERM handler
or `KeyboardInterrupt`).  A child process exiting unexpectedly is an
event of the environment that changes only the child's own aliveness. -/

structure LoopState where
  running : Bool
  alive : List Bool
deriving DecidableEq

/-- Events the environment can produce while the launcher idles: a clock
tick, the unexpected failure of child `i`, or a termination signal. -/
inductive LoopEvent where
  | tick
  | procFailed (i : Nat)
  | sigTerm
deriving DecidableEq

def isSignal : LoopEvent → Bool
  | LoopEvent.sigTerm => true
  | _ => false

/-- Effect of one event on the launcher's state: a tick changes nothing,
a child failure flips that child's aliveness only (nothing in the source
observes it), a termination signal runs the handler, which calls
`shutdown()` and so clears `self.running`. -/
def loopStep (s : LoopState) : LoopEvent → LoopState
  | LoopEvent.tick => s
  | LoopEvent.procFailed i => { s with alive := s.alive.set i false }
  | LoopEvent.sigTerm => { s with running := false }

/-- The steady-state loop over a finite schedule of events. -/
def mainLoop (s : LoopState) : List LoopEvent → LoopState
  | [] => s
  | e :: es => if s.running then mainLoop (loopStep s e) es else s

/-! ## Output relay (`SentinelXLauncher.monitor_process_output`, lines 142-149)

The monitor thread iterates `for line in iter(process.stdout.readline, '')`
and logs each non-empty line while `self.running` holds; any exception in
the loop is caught by the surrounding `try`/`except`, which logs one error
line and returns.  A stream is a list of read events; reaching the end of
the list is the `''` sentinel (EOF). -/

inductive ReadEv where
  | line (s : String)
  | errEv
deriving DecidableEq

def tagLine (name s : String) : String :=
  "[" ++ name ++ "] " ++ s

def monitorErrMsg (name : String) : String :=
  "Error monitoring " ++ name

/-- The log lines the monitor emits for a given stream: relayed lines
until EOF, or the lines before the first read error followed by the
caught-error log line. -/
def relayOutput (running : Bool) (name : String) : List ReadEv → List String
  | [] => []
  | ReadEv.errEv :: _ => [monitorErrMsg name]
  | ReadEv.line s :: rest =>
    (if running && !(s == "") then [tagLine name s] else []) ++
      relayOutput running name rest

/-- Launcher state visible to the monitor thread: it reads
`self.running` and nothing else, and writes nothing. -/
structure LauncherSnapshot where
  running : Bool
  procs : List ProcStatus
deriving DecidableEq

/-- `monitor_process_output(process, service_name)` as a state
transformer: it returns the launcher state it was given and the emitted
log lines. -/
def monitor_process_output (st : LauncherSnapshot) (name : String) (evs : List ReadEv) :
    LauncherSnapshot × List String :=
  (st, relayOutput st.running name evs)

/-! ## Installation verifier (`verify-installation.py`, `main`, lines 211-269)

The seven check functions are external: `run i` is the outcome of the
`i`-th one — it returns a boolean or raises.  `main` loops over the
`checks` list, recording `False` for a check that raises (the
`except Exception` branch) and continuing with the remaining checks,
then exits `0` iff every recorded result is `True`. -/

inductive CheckOutcome where
  | ret (b : Bool)
  | raises
deriving DecidableEq

/-- The recorded result of one check: the returned boolean, or `False`
when the check raised. -/
def checkResult : CheckOutcome → Bool
  | CheckOutcome.ret b => b
  | CheckOutcome.raises => false

/-- The names of the `checks` list, in source order. -/
def checkNames : List String :=
  ["Python Environment", "Python Dependencies", "Node.js Environment",
   "Environment Variables", "File Structure", "Port Availability",
   "Space-Track.org API"]

/-- The `for check_name, check_func in checks` loop with its
`try`/`except`: every check runs, a raising check is recorded as failed. -/
def runChecksLoop (run : Nat → CheckOutcome) : Nat → List String → List (String × Bool)
  | _, [] => []
  | i, n :: ns => (n, checkResult (run i)) :: runChecksLoop run (i + 1) ns

/-- The `results` dictionary (the seven names are distinct, so the
dictionary has one entry per check, in insertion order). -/
def verifyResults (run : Nat → CheckOutcome) : List (String × Bool) :=
  runChecksLoop run 0 checkNames

/-- `sys.exit(0 if success else 1)` where `success` is
`passed == total`. -/
def verifyExit (run : Nat → CheckOutcome) : Nat :=
  if (verifyResults run).all (fun p => p.2) then 0 else 1

def emptyName : String := ""

/-! ## Theorems -/

/-- One iteration of the shutdown loop delivers SIGKILL only after a
SIGTERM delivered earlier in the same iteration, exactly the grace period
before. -/
theorem stopOne_kill_after_grace (t : Nat) (p : ProcStatus) (ev : ShutdownEvent)
    (t1 : Nat) (p1 : ProcStatus) (h : stopOne t p = some (ev, t1, p1)) (k : Nat)
    (hk : ev.killTime = some k) : ∃ s, ev.termTime = some s ∧ k = s + gracePeriod := by
  cases p with
  | running b =>
    rcases b with ⟨te, ke⟩
    cases te with
    | some e =>
      by_cases he : e ≤ gracePeriod
      · simp [stopOne, he] at h
        obtain ⟨hev, ht, hp⟩ := h
        subst hev
        simp at hk
      · cases ke with
        | some k0 =>
          simp [stopOne, he] at h
          obtain ⟨hev, ht, hp⟩ := h
          subst hev
          simp at hk
          exact ⟨t, rfl, by omega⟩
        | none => simp [stopOne, he] at h
    | none =>
      cases ke with
      | some k0 =>
        simp [stopOne] at h
        obtain ⟨hev, ht, hp⟩ := h
        subst hev
        simp at hk
        exact ⟨t, rfl, by omega⟩
      | none => simp [stopOne] at h
  | stoppedGracefully =>
    simp [stopOne] at h
    obtain ⟨hev, ht, hp⟩ := h
    subst hev
    simp at hk
  | stoppedForcibly =>
    simp [stopOne] at h
    obtain ⟨hev, ht, hp⟩ := h
    subst hev
    simp at hk

/-- Across the whole shutdown loop, every delivered SIGKILL was preceded
by SIGTERM to the same process, its own grace period earlier. -/
theorem stopAll_kill_after_grace (ps : List ProcStatus) : ∀ t evs t2 ps2,
    stopAll t ps = some (evs, t2, ps2) → ∀ ev ∈ evs, ∀ k, ev.killTime = some k →
    ∃ s, ev.termTime = some s ∧ k = s + gracePeriod := by
  induction ps with
  | nil =>
    intro t evs t2 ps2 h
    simp [stopAll] at h
    obtain ⟨h1, h2, h3⟩ := h
    subst h1
    intro ev hev
    simp at hev
  | cons p ps ih =>
    intro t evs t2 ps2 h
    simp only [stopAll] at h
    split at h
    · simp at h
    · rename_i ev1 t1 p1 heq
      split at h
      · simp at h
      · rename_i evs1 t2x ps2x heq2
        simp at h
        obtain ⟨hevs, hts, hps⟩ := h
        subst hevs
        intro ev hev k hk
        rcases List.mem_cons.mp hev with hm | hm
        · rw [hm] at hk ⊢
          exact stopOne_kill_after_grace t p ev1 t1 p1 heq k hk
        · exact ih t1 evs1 t2x ps2x heq2 ev hm k hk

/-- Claim C2 (amended): in the shutdown loop each process receives exactly
one polite termination request before any force-kill, and its force-kill
comes exactly its own grace period after that request; however the
escalations are strictly sequential (each iteration begins only when the
previous one has finished), not independent. -/
theorem C2_escalation_per_process (t : Nat) (ps : List ProcStatus)
    (evs : List ShutdownEvent) (t2 : Nat) (ps2 : List ProcStatus)
    (h : stopAll t ps = some (evs, t2, ps2)) (ev : ShutdownEvent) (hev : ev ∈ evs)
    (k : Nat) (hk : ev.killTime = some k) :
    ∃ s, ev.termTime = some s ∧ k = s + gracePeriod :=
  stopAll_kill_after_grace ps t evs t2 ps2 h ev hev k hk

theorem C2_escalation_witness :
    ∃ s, (⟨some 0, some gracePeriod⟩ : ShutdownEvent).termTime = some s ∧
      gracePeriod = s + gracePeriod :=
  C2_escalation_per_process 0 [ProcStatus.running ⟨none, some 0⟩]
    [⟨some 0, some gracePeriod⟩] gracePeriod [ProcStatus.stoppedForcibly]
    (by decide) ⟨some 0, some gracePeriod⟩ (by decide) gracePeriod rfl

/-- Claim C2, as stated, is false: with two children that both ignore
SIGTERM and die instantly to SIGKILL, the second child's polite
termination request is delivered at time `gracePeriod` — only after the
first child's entire escalation has finished — not at the shutdown start
time 0: the grace periods do not elapse independently. -/
theorem C2_counterexample :
    stopAll 0 [ProcStatus.running ⟨none, some 0⟩, ProcStatus.running ⟨none, some 0⟩]
      = some ([⟨some 0, some gracePeriod⟩,
            ⟨some gracePeriod, some (gracePeriod + gracePeriod)⟩],
          gracePeriod + gracePeriod,
          [ProcStatus.stoppedForcibly, ProcStatus.stoppedForcibly]) ∧
    (some gracePeriod : Option Nat) ≠ some 0 := by decide

/-- Claim C3, as stated, is false: a child that ignores SIGTERM and
survives SIGKILL makes the final untimed `process.wait()` — the source has
no final force-kill timeout — block forever, so the shutdown loop never
returns and never reports any outcome. -/
theorem C3_counterexample :
    stopAll 0 [ProcStatus.running ⟨none, none⟩] = none := by decide

/-- An iteration on a process whose final `wait()` returns. -/
theorem stopOne_some_of_kill (t : Nat) (p : ProcStatus)
    (h : respondsToKill p = true) :
    ∃ ev t1 p1, stopOne t p = some (ev, t1, p1) ∧ isTerminal p1 = true := by
  cases p with
  | running b =>
    rcases b with ⟨te, ke⟩
    cases ke with
    | some k0 =>
      cases te with
      | some e =>
        by_cases he : e ≤ gracePeriod
        · exact ⟨⟨some t, none⟩, t + e, ProcStatus.stoppedGracefully,
            by simp [stopOne, he], rfl⟩
        · exact ⟨⟨some t, some (t + gracePeriod)⟩, t + gracePeriod + k0,
            ProcStatus.stoppedForcibly, by simp [stopOne, he], rfl⟩
      | none =>
        exact ⟨⟨some t, some (t + gracePeriod)⟩, t + gracePeriod + k0,
          ProcStatus.stoppedForcibly, by simp [stopOne], rfl⟩
    | none => simp [respondsToKill] at h
  | stoppedGracefully =>
    exact ⟨⟨none, none⟩, t, ProcStatus.stoppedGracefully, rfl, rfl⟩
  | stoppedForcibly =>
    exact ⟨⟨none, none⟩, t, ProcStatus.stoppedForcibly, rfl, rfl⟩

/-- Claim C3 (amended): when every managed process responds to SIGKILL,
the shutdown loop does return, and every process ends terminal (stopped
gracefully or force-killed; the source has no `StillRunning` report).
There is no final force-kill timeout, and total time is the sum over the
sequential iterations rather than a single grace period. -/
theorem C3_stopAll_returns_when_kill_works (t : Nat) (ps : List ProcStatus)
    (h : ∀ p ∈ ps, respondsToKill p = true) :
    ∃ evs t2 ps2, stopAll t ps = some (evs, t2, ps2) ∧
      ∀ q ∈ ps2, isTerminal q = true := by
  induction ps generalizing t with
  | nil => exact ⟨[], t, [], rfl, by intro q hq; simp at hq⟩
  | cons p ps ih =>
    rcases stopOne_some_of_kill t p (h p (List.mem_cons_self p ps)) with
      ⟨ev, t1, p1, h1, hterm⟩
    rcases ih t1 (fun q hq => h q (List.mem_cons_of_mem p hq)) with
      ⟨evs, t2, ps2, h2, hterm2⟩
    refine ⟨ev :: evs, t2, p1 :: ps2, ?_, ?_⟩
    · simp only [stopAll, h1, h2]
    · intro q hq
      rcases List.mem_cons.mp hq with hm | hm
      · rw [hm]; exact hterm
      · exact hterm2 q hm

theorem C3_witness : ∃ evs t2 ps2,
    stopAll 0 [ProcStatus.running ⟨none, some 0⟩] = some (evs, t2, ps2) ∧
      ∀ q ∈ ps2, isTerminal q = true :=
  C3_stopAll_returns_when_kill_works 0 [ProcStatus.running ⟨none, some 0⟩] (by decide)

/-- Processes left behind by a completed shutdown loop are all terminal. -/
theorem stopOne_terminal (t : Nat) (p : ProcStatus) (ev : ShutdownEvent)
    (t1 : Nat) (p1 : ProcStatus) (h : stopOne t p = some (ev, t1, p1)) :
    isTerminal p1 = true := by
  cases p with
  | running b =>
    rcases b with ⟨te, ke⟩
    cases te with
    | some e =>
      by_cases he : e ≤ gracePeriod
      · simp [stopOne, he] at h
        rcases h with ⟨_, _, hp⟩
        rw [← hp]; rfl
      · cases ke with
        | some k0 =>
          simp [stopOne, he] at h
          rcases h with ⟨_, _, hp⟩
          rw [← hp]; rfl
        | none => simp [stopOne, he] at h
    | none =>
      cases ke with
      | some k0 =>
        simp [stopOne] at h
        rcases h with ⟨_, _, hp⟩
        rw [← hp]; rfl
      | none => simp [stopOne] at h
  | stoppedGracefully =>
    simp [stopOne] at h
    rcases h with ⟨_, _, hp⟩
    rw [← hp]; rfl
  | stoppedForcibly =>
    simp [stopOne] at h
    rcases h with ⟨_, _, hp⟩
    rw [← hp]; rfl

theorem stopAll_terminal (ps : List ProcStatus) : ∀ t evs t2 ps2,
    stopAll t ps = some (evs, t2, ps2) → ∀ q ∈ ps2, isTerminal q = true := by
  induction ps with
  | nil =>
    intro t evs t2 ps2 h
    simp [stopAll] at h
    obtain ⟨h1, h2, h3⟩ := h
    subst h3
    intro q hq
    simp at hq
  | cons p ps ih =>
    intro t evs t2 ps2 h
    simp only [stopAll] at h
    split at h
    · simp at h
    · rename_i ev1 t1 p1 heq
      split at h
      · simp at h
      · rename_i evs1 t2x ps2x heq2
        simp at h
        obtain ⟨hevs, hts, hps⟩ := h
        subst hps
        intro q hq
        rcases List.mem_cons.mp hq with hm | hm
        · rw [hm]; exact stopOne_terminal t p ev1 t1 p1 heq
        · exact ih t1 evs1 t2x ps2x heq2 q hm

/-- On an already-terminal process the iteration is an instant no-op:
`Popen.send_signal` does nothing once the exit status is recorded and
`wait(timeout=5)` returns immediately. -/
theorem stopOne_of_terminal (t : Nat) (p : ProcStatus) (h : isTerminal p = true) :
    stopOne t p = some (⟨none, none⟩, t, p) := by
  cases p with
  | running b => simp [isTerminal] at h
  | stoppedGracefully => rfl
  | stoppedForcibly => rfl

theorem stopAll_of_terminal (ps : List ProcStatus) : ∀ t,
    (∀ q ∈ ps, isTerminal q = true) →
    stopAll t ps = some (List.replicate ps.length ⟨none, none⟩, t, ps) := by
  induction ps with
  | nil => intro t _; rfl
  | cons p ps ih =>
    intro t h
    have h1 := stopOne_of_terminal t p (h p (List.mem_cons_self p ps))
    have h2 := ih t (fun q hq => h q (List.mem_cons_of_mem p hq))
    simp only [stopAll, h1, h2, List.length_cons, List.replicate_succ]

/-- Claim C7: the shutdown loop is idempotent — run on the statuses a
completed first run left behind, a second run changes nothing: it returns
the same final statuses, takes no time, and delivers no signals. -/
theorem C7_stopAll_idempotent (t : Nat) (ps : List ProcStatus)
    (evs : List ShutdownEvent) (t2 : Nat) (ps2 : List ProcStatus)
    (h : stopAll t ps = some (evs, t2, ps2)) :
    stopAll t2 ps2 = some (List.replicate ps2.length ⟨none, none⟩, t2, ps2) :=
  stopAll_of_terminal ps2 t2 (stopAll_terminal ps t evs t2 ps2 h)

theorem C7_witness :
    stopAll 0 [ProcStatus.stoppedGracefully] =
      some (List.replicate 1 ⟨none, none⟩, 0, [ProcStatus.stoppedGracefully]) :=
  C7_stopAll_idempotent 0 [ProcStatus.running ⟨some 0, none⟩] [⟨some 0, none⟩] 0
    [ProcStatus.stoppedGracefully] (by decide)

/-- Elapsed-time bound for the probe loop: each of the remaining
iterations spends the connect duration (at most the 1-second socket
timeout) plus the 1-second sleep. -/
theorem wait_for_service_loop_elapsed (attempt : Nat → ConnResult) (dur : Nat → Nat)
    (hdur : ∀ i, dur i ≤ 1) : ∀ rem i t,
    (wait_for_service_loop attempt dur rem i t).2 ≤ t + 2 * rem := by
  intro rem
  induction rem with
  | zero => intro i t; simp [wait_for_service_loop]
  | succ n ih =>
    intro i t
    simp only [wait_for_service_loop]
    by_cases h : attempt i = ConnResult.ok
    · rw [if_pos h]
      have hd := hdur i
      show t + dur i ≤ t + 2 * (n + 1)
      omega
    · rw [if_neg h]
      have hd := hdur i
      have h1 := ih (i + 1) (t + dur i + 1)
      omega

/-- The probe loop reports ready exactly when one of its remaining
attempts finds the port connectable. -/
theorem wait_for_service_loop_ready (attempt : Nat → ConnResult) (dur : Nat → Nat) :
    ∀ rem i t, (wait_for_service_loop attempt dur rem i t).1 = true ↔
      ∃ j, j < rem ∧ attempt (i + j) = ConnResult.ok := by
  intro rem
  induction rem with
  | zero => intro i t; simp [wait_for_service_loop]
  | succ n ih =>
    intro i t
    simp only [wait_for_service_loop]
    by_cases h : attempt i = ConnResult.ok
    · rw [if_pos h]
      constructor
      · intro _
        exact ⟨0, Nat.succ_pos n, by simpa using h⟩
      · intro _
        rfl
    · rw [if_neg h]
      rw [ih (i + 1) (t + dur i + 1)]
      constructor
      · rintro ⟨j, hj, hok⟩
        refine ⟨j + 1, by omega, ?_⟩
        rw [show i + (j + 1) = i + 1 + j by omega]
        exact hok
      · rintro ⟨j, hj, hok⟩
        cases j with
        | zero =>
          simp at hok
          exact absurd hok h
        | succ j0 =>
          refine ⟨j0, by omega, ?_⟩
          rw [show i + 1 + j0 = i + (j0 + 1) by omega]
          exact hok

/-- Claim C4 (amended): the probe performs exactly `timeout` connect
attempts, one per poll interval, rather than tracking cumulative elapsed
time: it returns ready iff one of those attempts finds the port
connectable, and — each attempt being capped at 1 s by its own socket
timeout and followed by a 1 s sleep — it returns within `2 * timeout`
seconds, not within `timeout + pollInterval`. -/
theorem C4_probe_attempt_counting (attempt : Nat → ConnResult) (dur : Nat → Nat)
    (timeout : Nat) (hdur : ∀ i, dur i ≤ 1) :
    (wait_for_service attempt dur timeout).2 ≤ 2 * timeout ∧
      ((wait_for_service attempt dur timeout).1 = true ↔
        ∃ j, j < timeout ∧ attempt j = ConnResult.ok) := by
  constructor
  · have h := wait_for_service_loop_elapsed attempt dur hdur timeout 0 0
    simpa [wait_for_service] using h
  · have h := wait_for_service_loop_ready attempt dur timeout 0 0
    simpa [wait_for_service] using h

/-- A port that is open from the start, found by instantaneous connects. -/
def alwaysOpen : Nat → ConnResult := fun _ => ConnResult.ok

def instantConn : Nat → Nat := fun _ => 0

theorem C4_probe_witness :
    (wait_for_service alwaysOpen instantConn 3).2 ≤ 2 * 3 ∧
      ((wait_for_service alwaysOpen instantConn 3).1 = true ↔
        ∃ j, j < 3 ∧ alwaysOpen j = ConnResult.ok) :=
  C4_probe_attempt_counting alwaysOpen instantConn 3 (fun _ => Nat.zero_le 1)

/-- A port that never opens, probed over a network that lets every
connect attempt stall for its full 1-second socket timeout. -/
def neverOpen : Nat → ConnResult := fun _ => ConnResult.refused

def stalledConn : Nat → Nat := fun _ => 1

/-- Claim C4, as stated, is false: when every connect attempt stalls for
its full 1-second socket timeout against a port that never opens, the
probe with `timeout = 30` runs for 60 seconds before reporting the
timeout — twice the claimed `timeout + pollInterval` bound — because the
loop counts attempts, not cumulative elapsed time. -/
theorem C4_counterexample :
    (wait_for_service neverOpen stalledConn 30).2 = 60 ∧
      (wait_for_service neverOpen stalledConn 30).1 = false ∧
      ¬ (60 ≤ 30 + 1) := by decide

/-- The probe loop cannot distinguish an exception-raising connect
attempt from a failed one. -/
theorem wait_for_service_loop_normalize (attempt : Nat → ConnResult) (dur : Nat → Nat) :
    ∀ rem i t, wait_for_service_loop (fun j => normalizeConn (attempt j)) dur rem i t =
      wait_for_service_loop attempt dur rem i t := by
  intro rem
  induction rem with
  | zero => intro i t; rfl
  | succ n ih =>
    intro i t
    simp only [wait_for_service_loop]
    have hok : normalizeConn (attempt i) = ConnResult.ok ↔ attempt i = ConnResult.ok := by
      cases hai : attempt i <;> simp [normalizeConn]
    by_cases h : attempt i = ConnResult.ok
    · rw [if_pos h, if_pos (hok.mpr h)]
    · rw [if_neg h, if_neg (fun hc => h (hok.mp hc))]
      exact ih (i + 1) (t + dur i + 1)

/-- Claim C9: the probe is total at its interface — it always returns a
boolean together with its elapsed time, and an exception raised by a
connect attempt (caught by the bare `except Exception: pass`) influences
the result exactly as a failed connect does.  The per-attempt 1-second
`settimeout` is the `dur` bound used in the elapsed-time theorem. -/
theorem C9_probe_total (attempt : Nat → ConnResult) (dur : Nat → Nat) (timeout : Nat) :
    wait_for_service (fun j => normalizeConn (attempt j)) dur timeout =
      wait_for_service attempt dur timeout :=
  wait_for_service_loop_normalize attempt dur timeout 0 0

/-- The running flag after one steady-state event: only a termination
signal clears it; a tick or an unexpected child failure leaves it
untouched, since nothing in `while self.running: time.sleep(1)` observes
the children. -/
theorem loopStep_running (s : LoopState) (e : LoopEvent) :
    (loopStep s e).running = (s.running && !isSignal e) := by
  cases e with
  | tick => simp [loopStep, isSignal]
  | procFailed i => simp [loopStep, isSignal]
  | sigTerm => simp [loopStep, isSignal]

/-- Claim C5 (amended): the steady-state loop leaves `Running` only on a
termination signal; under any schedule of ticks and unexpected child
failures with no signal the launcher is still in `Running` at the end —
a child reaching `Failed` on its own is not observed and does not
trigger shutdown. -/
theorem C5_signal_only_shutdown (s : LoopState) (evs : List LoopEvent)
    (h1 : s.running = true) (h2 : ∀ e ∈ evs, isSignal e = false) :
    (mainLoop s evs).running = true := by
  induction evs generalizing s with
  | nil => exact h1
  | cons e es ih =>
    simp only [mainLoop, h1, if_true]
    refine ih (loopStep s e) ?_ (fun x hx => h2 x (List.mem_cons_of_mem e hx))
    rw [loopStep_running, h1, h2 e (List.mem_cons_self e es)]
    rfl

theorem C5_witness :
    (mainLoop ⟨true, [true]⟩ [LoopEvent.procFailed 0, LoopEvent.tick]).running = true :=
  C5_signal_only_shutdown ⟨true, [true]⟩ [LoopEvent.procFailed 0, LoopEvent.tick]
    rfl (by decide)

/-- Claim C5, as stated, is false: after the only managed child fails
unexpectedly, the launcher is still in its `Running` loop — the state
after the failure event has the running flag set and the child dead. -/
theorem C5_counterexample :
    (mainLoop ⟨true, [true]⟩ [LoopEvent.procFailed 0]).running = true ∧
      (mainLoop ⟨true, [true]⟩ [LoopEvent.procFailed 0]).alive = [false] := by decide

/-- Claim C6: stage 2 is gated on stage 1's readiness: the frontend spawn
appears in the run trace only when the dependency check, the ML spawn and
the port-5000 readiness probe all succeeded, and then only after the
probe; when the probe fails, the trace contains no frontend spawn. -/
theorem C6_stage_gating (env : RunEnv) :
    (Action.spawnFE ∈ runTrace env →
      env.depsOk = true ∧ env.mlSpawnOk = true ∧ env.mlReady = true ∧
        (runTrace env).indexOf Action.probeML < (runTrace env).indexOf Action.spawnFE) ∧
    (env.mlReady = false → Action.spawnFE ∉ runTrace env) := by
  rcases env with ⟨d, ms, mr, fs, fr, sg⟩
  cases d <;> cases ms <;> cases mr <;> cases fs <;> cases fr <;> cases sg <;> decide

/-- A read error is logged: the caught-exception log line appears in the
relay's output whenever the stream contains a read error. -/
theorem relayOutput_err_logged (running : Bool) (name : String) :
    ∀ evs : List ReadEv, ReadEv.errEv ∈ evs →
      monitorErrMsg name ∈ relayOutput running name evs := by
  intro evs
  induction evs with
  | nil => intro h; simp at h
  | cons e es ih =>
    intro h
    cases e with
    | errEv => simp [relayOutput]
    | line s =>
      have hm : ReadEv.errEv ∈ es := by
        rcases List.mem_cons.mp h with hc | hc
        · exact absurd hc (by simp)
        · exact hc
      simp only [relayOutput]
      exact List.mem_append_right _ (ih hm)

/-- Claim C8: a read error inside an output relay is caught by the
monitor's `try`/`except`: the monitor hands back the launcher state
exactly as it received it, the error surfaces only as a log line, and
the output of every other relay — a pure function of its own stream —
is unaffected. -/
theorem C8_relay_error_nonfatal (st : LauncherSnapshot) (name : String)
    (evs : List ReadEv) :
    (monitor_process_output st name evs).1 = st ∧
      (ReadEv.errEv ∈ evs →
        monitorErrMsg name ∈ (monitor_process_output st name evs).2) ∧
      (∀ name2 evs2,
        relayOutput ((monitor_process_output st name evs).1).running name2 evs2 =
          relayOutput st.running name2 evs2) :=
  ⟨rfl, fun h => relayOutput_err_logged st.running name evs h, fun _ _ => rfl⟩

/-- `checkResult` is `true` exactly for a check that returned `True`
(a raising check is recorded as `False`). -/
theorem checkResult_true_iff (c : CheckOutcome) :
    checkResult c = true ↔ c = CheckOutcome.ret true := by
  cases c with
  | ret b => cases b <;> simp [checkResult]
  | raises => simp [checkResult]

/-- Claim C10: the verifier exits `0` iff all seven checks returned
`True`; a raising check is recorded as a failed entry (its slot is
present, with value `false`) and the remaining checks still run — the
results list always has exactly seven entries, one per check in source
order, and the exit status is always `0` or `1`. -/
theorem C10_verifier_exit (run : Nat → CheckOutcome) :
    ((verifyExit run = 0) ↔ ∀ i, i < 7 → run i = CheckOutcome.ret true) ∧
      (verifyResults run).length = 7 ∧
      (∀ i, i < 7 → (verifyResults run).get? i =
        some (checkNames.getD i emptyName, checkResult (run i))) ∧
      (verifyExit run = 0 ∨ verifyExit run = 1) := by
  have hexit : verifyExit run = 0 ↔ (verifyResults run).all (fun p => p.2) = true := by
    unfold verifyExit
    cases h : (verifyResults run).all (fun p => p.2) <;> simp [h]
  have hall : (verifyResults run).all (fun p => p.2) = true ↔
      (checkResult (run 0) = true ∧ checkResult (run 1) = true ∧
       checkResult (run 2) = true ∧ checkResult (run 3) = true ∧
       checkResult (run 4) = true ∧ checkResult (run 5) = true ∧
       checkResult (run 6) = true) := by
    simp [verifyResults, checkNames, runChecksLoop]
  have hforall : (checkResult (run 0) = true ∧ checkResult (run 1) = true ∧
       checkResult (run 2) = true ∧ checkResult (run 3) = true ∧
       checkResult (run 4) = true ∧ checkResult (run 5) = true ∧
       checkResult (run 6) = true) ↔
      ∀ i, i < 7 → checkResult (run i) = true := by
    constructor
    · rintro ⟨h0, h1, h2, h3, h4, h5, h6⟩ i hi
      interval_cases i <;> assumption
    · intro h
      exact ⟨h 0 (by omega), h 1 (by omega), h 2 (by omega), h 3 (by omega),
        h 4 (by omega), h 5 (by omega), h 6 (by omega)⟩
  have hcr : (∀ i, i < 7 → checkResult (run i) = true) ↔
      ∀ i, i < 7 → run i = CheckOutcome.ret true :=
    forall_congr' (fun i => imp_congr_right (fun _ => checkResult_true_iff (run i)))
  refine ⟨hexit.trans (hall.trans (hforall.trans hcr)), rfl, ?_, ?_⟩
  · intro i hi
    interval_cases i <;> rfl
  · cases h : (verifyResults run).all (fun p => p.2) <;> simp [verifyExit, h]

/-- The `shutdown()`-then-`sys.exit(0)` path can produce only exit
status 0 (or hang forever): it never produces 2. -/
theorem stopAll_map_zero_ne_two (t : Nat) (ps : List ProcStatus) :
    (stopAll t ps).map (fun _ => (0 : Nat)) ≠ some 2 := by
  cases h : stopAll t ps <;> simp

/-- Claim C1 (the code contradicts it): in the scenario where the
dependency check passes, the ML service spawns, but the port-5000
readiness probe times out and the child exits promptly when asked, the
launcher exits 0 — not the claimed 1 — because `shutdown()` ends with
`sys.exit(0)`, making the `sys.exit(1)` after the failed probe in `run`
unreachable; moreover no execution of `run` can exit 2, so shutdown
failure can never be reported.  The dead `sys.exit(1)` calls on the
failure paths show the claimed contract is the code's own intent. -/
theorem C1_exit_code_divergence :
    runExitCode readinessTimeoutEnv promptBehavior promptBehavior = some 0 ∧
      runExitCode readinessTimeoutEnv promptBehavior promptBehavior ≠ some 1 ∧
      ∀ env mlB feB, runExitCode env mlB feB ≠ some 2 := by
  refine ⟨by decide, by decide, ?_⟩
  intro env mlB feB
  rcases env with ⟨d, ms, mr, fs, fr, sg⟩
  cases d <;> cases ms <;> cases mr <;> cases fs <;> cases fr <;> cases sg <;>
    simp [runExitCode]

end SentinelX
